import Mathlib

/-!
Shallow embedding of the Dato Predictive Service client
(src/dato/deploy/_client.py) and proofs about its external contract.

Python values that cross the client boundary (arguments, JSON request
bodies, parsed JSON responses) are modelled by `PyVal`.  The HTTP layer
(the requests library) is modelled as an oracle `HttpRequest → HttpResponse`
passed explicitly; the single request a method issues is also returned as a
trace, so that "no network call is made" is expressible.  Python exceptions
raised by the client are modelled by the `Err` taxonomy the specification
names (the Python classes ValueError / TypeError / RuntimeError / NonExistError
are mapped to the specification's ConfigurationError / InvalidArgument /
RequestError / NotFoundError at the raise sites that correspond to them).
-/

namespace DatoClient

/-- Python values exchanged with the client: strings, integers, booleans,
None, lists and string-keyed dictionaries (modelled as association lists). -/
inductive PyVal where
  | str : String → PyVal
  | int : Int → PyVal
  | bool : Bool → PyVal
  | pynone : PyVal
  | list : List PyVal → PyVal
  | dict : List (String × PyVal) → PyVal

/-- The error taxonomy of the specification; each constructor corresponds to
a raise site in the source. -/
inductive Err where
  | configurationError : String → Err
  | invalidArgument : String → Err
  | notFoundError : String → Err
  | requestError : Int → String → Err
  | jsonDecodeError : Err
deriving DecidableEq, Repr

/-- An HTTP request as assembled by the client before it is handed to the
requests library: method, url, JSON body (before serialization), headers,
timeout in seconds, basic-auth credentials and certificate verification. -/
structure HttpRequest where
  method : String
  url : String
  body : PyVal
  headers : List (String × String)
  timeout : Int
  authUser : String
  authPass : String
  verify : Bool

/-- An HTTP response as seen by the client: the status code, the raw text of
the body, and the result of JSON-parsing that text (`none` when the text is
not valid JSON), standing for `response.json()` / `json.loads(response.text)`. -/
structure HttpResponse where
  status_code : Int
  text : String
  json : Option PyVal

/-- The client state: the fields assigned by `PredictiveServiceClient.__init__`.
`schema_version` is kept as a `PyVal` because the source caches whatever value
`json.loads(res).get(..)` returns. -/
structure PredictiveServiceClient where
  endpoint : String
  api_key : String
  should_verify_certificate : Bool
  query_timeout : Int
  schema_version : PyVal

/-- The Python 2 comparison `self._schema_version < 7` from `_post`:
integers compare numerically, booleans as 0/1, `None` is below every number,
and every other type (str, list, dict) compares above all numbers. -/
def schemaLt7 : PyVal → Bool
  | .int n => decide (n < 7)
  | .bool _ => true
  | .pynone => true
  | .str _ => false
  | .list _ => false
  | .dict _ => false

/-- `d.update({k: v})` on a Python dict: replace the binding of `k` if
present, otherwise add it. -/
def dictSet : List (String × PyVal) → String → PyVal → List (String × PyVal)
  | [], k, v => [(k, v)]
  | (k0, v0) :: rest, k, v =>
      if k0 = k then (k, v) :: rest else (k0, v0) :: dictSet rest k v

/-- Membership test `k in d` for a Python dict body. -/
def hasKey (d : List (String × PyVal)) (k : String) : Bool :=
  d.any (fun p => p.1 == k)

/-- The timeout normalization in `_post`:
`if not timeout or not isinstance(timeout, int): timeout = 10`.
`none` models passing `timeout=None` (the default); an `Int` is always an
instance of int, and is falsy exactly when it is 0. -/
def effTimeout : Option Int → Int
  | none => 10
  | some t => if t = 0 then 10 else t

/-- One character of `urllib.quote`: letters, digits, `_ . -` and the default
safe character `/` pass through, everything else becomes `%XX`. -/
def hexDigit (n : Nat) : String :=
  String.singleton (if n < 10 then Char.ofNat (48 + n) else Char.ofNat (55 + n))

def quoteChar (ch : Char) : String :=
  if ch.isAlphanum || ch == '_' || ch == '.' || ch == '-' || ch == '/' then
    String.singleton ch
  else
    "%" ++ hexDigit (ch.toNat / 16) ++ hexDigit (ch.toNat % 16)

/-- `urllib.quote(uri)` from `query`. -/
def urlQuote (s : String) : String :=
  String.join (s.toList.map quoteChar)

/-- The body manipulation of `_post`: when the cached schema version is
(Python-2) below 7, `data.update({'api_key': self.api_key})` adds the api key
at the top level of the body. -/
def postBody (c : PredictiveServiceClient) (data : List (String × PyVal)) :
    List (String × PyVal) :=
  if schemaLt7 c.schema_version then dictSet data "api_key" (.str c.api_key)
  else data

/-- The request `_post` hands to `session.post`: url `endpoint + '/' + path`,
JSON content type, normalized timeout, and `HTTPBasicAuth('api_key', self.api_key)`. -/
def buildPost (c : PredictiveServiceClient) (path : String)
    (data : List (String × PyVal)) (timeout : Option Int) : HttpRequest :=
  { method := "POST"
    url := c.endpoint ++ "/" ++ path
    body := .dict (postBody c data)
    headers := [("content-type", "application/json")]
    timeout := effTimeout timeout
    authUser := "api_key"
    authPass := c.api_key
    verify := c.should_verify_certificate }

/-- The request issued by `query(uri, **kwargs)` after validation:
`self._post('query/%s' % urllib.quote(uri), data={'data': kwargs},
timeout=self.query_timeout)`. -/
def queryRequest (c : PredictiveServiceClient) (s : String)
    (kwargs : List (String × PyVal)) : HttpRequest :=
  buildPost c ("query/" ++ urlQuote s) [("data", .dict kwargs)]
    (some c.query_timeout)

/-- The status dispatch of `query` on the `_post` response: 200 returns
`response.json()` (which raises when the text is not JSON), 404 raises
`NonExistError` (the specification's NotFoundError), anything else raises
`RuntimeError` with status and text (the specification's RequestError). -/
def queryOutcome (response : HttpResponse) (quoted : String) :
    Except Err PyVal :=
  if response.status_code = 200 then
    match response.json with
    | some j => .ok j
    | none => .error .jsonDecodeError
  else if response.status_code = 404 then
    .error (.notFoundError ("Predictive Object " ++ quoted ++ " cannot be found"))
  else
    .error (.requestError response.status_code response.text)

/-- `PredictiveServiceClient.query`.  The second component is the list of
HTTP requests issued during the call (empty when validation fails first). -/
def query (c : PredictiveServiceClient) (uri : PyVal)
    (kwargs : List (String × PyVal)) (http : HttpRequest → HttpResponse) :
    Except Err PyVal × List HttpRequest :=
  match uri with
  | .str s =>
      let req := queryRequest c s kwargs
      (queryOutcome (http req) (urlQuote s), [req])
  | _ => (.error (.invalidArgument "uri has to be a string or unicode"), [])

/-- The request issued by `feedback(key, data)` after validation:
`self._post('feedback', data={'data': data, 'id': key})` with the default
`timeout=None`. -/
def feedbackRequest (c : PredictiveServiceClient) (k : String)
    (d : List (String × PyVal)) : HttpRequest :=
  buildPost c "feedback" [("data", .dict d), ("id", .str k)] none

/-- `PredictiveServiceClient.feedback`.  Note that the source returns the
value of `self._post(...)` directly: the raw response object, with no status
code dispatch and no JSON parsing. -/
def feedback (c : PredictiveServiceClient) (key : PyVal) (data : PyVal)
    (http : HttpRequest → HttpResponse) :
    Except Err HttpResponse × List HttpRequest :=
  match key with
  | .str k =>
      match data with
      | .dict d =>
          let req := feedbackRequest c k d
          (.ok (http req), [req])
      | _ => (.error (.invalidArgument "Feedback data needs to be dictionary type"), [])
  | _ => (.error (.invalidArgument "Expect key to be a string or unicode"), [])

/-- `PredictiveServiceClient.set_query_timeout`.  Mirrors
`if timeout <= 0 or not isinstance(timeout, int): raise ValueError`:
a non-positive int fails, and any non-int fails (in Python 2 the comparison
with 0 never raises, and the isinstance disjunct catches every non-int;
booleans are instances of int with True = 1, False = 0).  Returns the client
after the call together with the error raised, if any; the assignment
`self.query_timeout = timeout` happens only after the check. -/
def set_query_timeout (c : PredictiveServiceClient) (timeout : PyVal) :
    PredictiveServiceClient × Option Err :=
  match timeout with
  | .int t =>
      if t ≤ 0 then
        (c, some (.invalidArgument "timeout value has to be a positive integer in seconds"))
      else
        ({ c with query_timeout := t }, none)
  | .bool b =>
      if b then ({ c with query_timeout := 1 }, none)
      else (c, some (.invalidArgument "timeout value has to be a positive integer in seconds"))
  | _ => (c, some (.invalidArgument "timeout value has to be a positive integer in seconds"))

/-- The schema version cached by `__init__`:
```
try:
    res = self._ping()
    self._schema_version = json.loads(res).get('schema_version',-1)
except: self._schema_version = -1
```
`_ping` performs one GET against the endpoint and raises unless the status is
200; the GET outcome is modelled by an `Option HttpResponse` (`none` = network
error).  A malformed body (`json` = none), a body that is not a dict (`.get`
raises AttributeError) and a non-200 status all land in the `except` arm. -/
def computeSchemaVersion : Option HttpResponse → PyVal
  | none => .int (-1)
  | some r =>
      if r.status_code = 200 then
        match r.json with
        | some (.dict fields) => (fields.lookup "schema_version").getD (.int (-1))
        | _ => .int (-1)
      else .int (-1)

/-- A parsed configuration file as ConfigParser exposes it: named sections of
key/value pairs (with `optionxform = str`, keys are case sensitive). -/
structure ConfigFile where
  sections : List (String × List (String × String))

def SERVICE_INFO_SECTION_NAME : String := "Service Info"

/-- `config.get(section, key)`: raises (NoOptionError, here the
specification's ConfigurationError) when the key is absent. -/
def configGet (kvs : List (String × String)) (k : String) : Except Err String :=
  match kvs.lookup k with
  | some v => .ok v
  | none => .error (.configurationError ("No option " ++ k ++ " in section " ++ SERVICE_INFO_SECTION_NAME))

/-- `config.getboolean`: the boolean states ConfigParser accepts. -/
def getBoolean (s : String) : Except Err Bool :=
  if s.toLower = "1" || s.toLower = "yes" || s.toLower = "true" || s.toLower = "on" then
    .ok true
  else if s.toLower = "0" || s.toLower = "no" || s.toLower = "false" || s.toLower = "off" then
    .ok false
  else .error (.configurationError ("Not a boolean: " ++ s))

/-- `PredictiveServiceClient._read_config`.  The file system is an oracle
from paths to parsed config files; `none` models `not os.path.isfile(path)`.
Returns (endpoint, api key, verify certificate). -/
def read_config (fs : String → Option ConfigFile) (config_file : String) :
    Except Err (String × String × Bool) :=
  match fs config_file with
  | none => .error (.configurationError ("Path " ++ config_file ++ " is not a file."))
  | some cfg =>
      match cfg.sections.lookup SERVICE_INFO_SECTION_NAME with
      | none => .error (.configurationError
          ("Cannot find " ++ SERVICE_INFO_SECTION_NAME ++ " section in config file " ++ config_file))
      | some kvs => do
          let ep ← configGet kvs "endpoint"
          let key ← configGet kvs "api key"
          let verify ← match kvs.lookup "verify certificate" with
            | some v => getBoolean v
            | none => .ok false
          .ok (ep, key, verify)

/-- Python truthiness of an optional string argument: `None` and the empty
string are falsy. -/
def truthyS : Option String → Bool
  | none => false
  | some s => !s.isEmpty

/-- The configuration-resolution part of `__init__`:
`if config_file: self._read_config(config_file)` else require truthy
`endpoint` and `api_key` (`should_verify_certificate or False`). -/
def resolveConfig (endpoint api_key : Option String)
    (should_verify_certificate : Option Bool) (config_file : Option String)
    (fs : String → Option ConfigFile) : Except Err (String × String × Bool) :=
  if truthyS config_file then
    read_config fs (config_file.getD "")
  else if !truthyS endpoint || !truthyS api_key then
    .error (.configurationError
      "Either config_file or endpoint and api_key pair need to be provided to initialize PredictiveServiceClient.")
  else
    .ok (endpoint.getD "", api_key.getD "", should_verify_certificate.getD false)

/-- `PredictiveServiceClient.__init__`: resolve the configuration (which may
raise), then set `query_timeout = 10` and cache the schema version from the
ping, whose failure is swallowed. -/
def initClient (endpoint api_key : Option String)
    (should_verify_certificate : Option Bool) (config_file : Option String)
    (fs : String → Option ConfigFile) (ping : Option HttpResponse) :
    Except Err PredictiveServiceClient :=
  (resolveConfig endpoint api_key should_verify_certificate config_file fs).map
    (fun cfg =>
      { endpoint := cfg.1
        api_key := cfg.2.1
        should_verify_certificate := cfg.2.2
        query_timeout := 10
        schema_version := computeSchemaVersion ping })

/-- Boolean test used to state the validation claims. -/
def isPosInt : PyVal → Bool
  | .int n => decide (0 < n)
  | .bool b => b
  | _ => false

def isStr : PyVal → Bool
  | .str _ => true
  | _ => false

def isDict : PyVal → Bool
  | .dict _ => true
  | _ => false

/-! ### Concrete fixtures used by witnesses and counterexamples -/

/-- A client whose cached schema version is 9 (at least 7). -/
def c0 : PredictiveServiceClient :=
  { endpoint := "http://e", api_key := "k", should_verify_certificate := false
    query_timeout := 10, schema_version := .int 9 }

/-- A client whose cached schema version is 5 (below 7). -/
def cLow : PredictiveServiceClient :=
  { endpoint := "http://e", api_key := "k", should_verify_certificate := false
    query_timeout := 10, schema_version := .int 5 }

/-- An HTTP oracle that always answers 500 with a non-JSON body. -/
def http500 : HttpRequest → HttpResponse :=
  fun _ => { status_code := 500, text := "boom", json := none }

/-- An HTTP oracle that always answers 200 with body `{"ack": true}`. -/
def http200ack : HttpRequest → HttpResponse :=
  fun _ => { status_code := 200, text := "", json := some (.dict [("ack", .bool true)]) }

/-! ### Claims -/

/-- Claim C4: for every string uri, `query(uri, params)` returns the response
body parsed as JSON when the HTTP status is 200, fails with NotFoundError when
the status is 404, and fails with RequestError carrying both the status code
and the response text for every other status. -/
theorem c4_query_status_mapping (c : PredictiveServiceClient) (s : String)
    (kwargs : List (String × PyVal)) (http : HttpRequest → HttpResponse)
    (resp : HttpResponse) (hresp : http (queryRequest c s kwargs) = resp) :
    (∀ j, resp.status_code = 200 → resp.json = some j →
        (query c (.str s) kwargs http).1 = .ok j) ∧
    (resp.status_code = 404 →
        (query c (.str s) kwargs http).1
          = .error (.notFoundError ("Predictive Object " ++ urlQuote s ++ " cannot be found"))) ∧
    (resp.status_code ≠ 200 → resp.status_code ≠ 404 →
        (query c (.str s) kwargs http).1
          = .error (.requestError resp.status_code resp.text)) := by
  subst hresp
  refine ⟨?_, ?_, ?_⟩
  · intro j h200 hj
    simp [query, queryOutcome, h200, hj]
  · intro h404
    simp [query, queryOutcome, h404]
  · intro h200 h404
    simp [query, queryOutcome, h200, h404]

theorem c4_query_status_mapping_witness :
    (query c0 (.str "x") [] http500).1 = .error (.requestError 500 "boom") :=
  (c4_query_status_mapping c0 "x" [] http500
      (http500 (queryRequest c0 "x" [])) rfl).2.2 (by decide) (by decide)

/-- Claim C7: for every non-string uri argument, `query(uri, params)` fails
with InvalidArgument before performing any network call — the trace of issued
HTTP requests is empty. -/
theorem c7_query_nonstring_no_request (c : PredictiveServiceClient) (u : PyVal)
    (kwargs : List (String × PyVal)) (http : HttpRequest → HttpResponse)
    (h : ∀ s, u ≠ PyVal.str s) :
    query c u kwargs http
      = (.error (.invalidArgument "uri has to be a string or unicode"), []) := by
  cases u <;> first | rfl | exact absurd rfl (h _)

theorem c7_query_nonstring_no_request_witness :
    query c0 (.int 123) [] http500
      = (.error (.invalidArgument "uri has to be a string or unicode"), []) :=
  c7_query_nonstring_no_request c0 (.int 123) [] http500
    (fun _ h => PyVal.noConfusion h)

/-- Claim C8: `feedback(key, data)` fails with InvalidArgument if and only if
`key` is not a string or `data` is not a mapping; for every string key and
every mapping data, validation passes and the call goes through to `_post`. -/
theorem c8_feedback_validation (c : PredictiveServiceClient) (key data : PyVal)
    (http : HttpRequest → HttpResponse) :
    ((∃ msg, (feedback c key data http).1 = .error (.invalidArgument msg)) ↔
      ¬(isStr key = true ∧ isDict data = true)) ∧
    (∀ k d, key = .str k → data = .dict d →
      (feedback c key data http).1 = .ok (http (feedbackRequest c k d))) := by
  constructor
  · cases key <;> cases data <;> simp [feedback, isStr, isDict]
  · intro k d hk hd
    subst hk; subst hd
    rfl

theorem c8_feedback_validation_witness :
    (feedback c0 (.str "id1") (.dict [("k", .str "v")]) http200ack).1
      = .ok (http200ack (feedbackRequest c0 "id1" [("k", .str "v")])) :=
  (c8_feedback_validation c0 (.str "id1") (.dict [("k", .str "v")]) http200ack).2
    "id1" [("k", .str "v")] rfl rfl

/-- Claim C6: `setQueryTimeout(seconds)` fails with InvalidArgument if and
only if `seconds` is not a positive integer, and when it succeeds with an
integer n, every subsequent `query` call issues its HTTP request with timeout
n.  (Python booleans are instances of int with True = 1, so `True` counts as
the positive integer 1.) -/
theorem c6_set_query_timeout_contract (c : PredictiveServiceClient) (t : PyVal)
    (s : String) (kwargs : List (String × PyVal))
    (http : HttpRequest → HttpResponse) :
    ((set_query_timeout c t).2.isSome = !isPosInt t) ∧
    (∀ e, (set_query_timeout c t).2 = some e →
        e = .invalidArgument "timeout value has to be a positive integer in seconds") ∧
    (∀ n : Int, t = .int n → 0 < n →
        (set_query_timeout c t).2 = none ∧
        (set_query_timeout c t).1.query_timeout = n ∧
        (query (set_query_timeout c t).1 (.str s) kwargs http).2.map
          (fun r => r.timeout) = [n]) := by
  refine ⟨?_, ?_, ?_⟩
  · cases t with
    | str v => simp [set_query_timeout, isPosInt]
    | int n =>
        by_cases h : n ≤ 0
        · simp [set_query_timeout, isPosInt, if_pos h,
            decide_eq_false (by omega : ¬ 0 < n)]
        · simp [set_query_timeout, isPosInt, if_neg h,
            decide_eq_true (by omega : 0 < n)]
    | bool b => cases b <;> simp [set_query_timeout, isPosInt]
    | pynone => simp [set_query_timeout, isPosInt]
    | list xs => simp [set_query_timeout, isPosInt]
    | dict d => simp [set_query_timeout, isPosInt]
  · intro e he
    cases t with
    | str v => simpa [set_query_timeout] using he.symm
    | int n =>
        by_cases h : n ≤ 0
        · rw [set_query_timeout, if_pos h] at he
          exact (Option.some.injEq _ _ ▸ he.symm ▸ rfl)
        · rw [set_query_timeout, if_neg h] at he
          exact absurd he (by simp)
    | bool b =>
        cases b
        · simpa [set_query_timeout] using he.symm
        · rw [set_query_timeout] at he
          exact absurd he (by simp)
    | pynone => simpa [set_query_timeout] using he.symm
    | list xs => simpa [set_query_timeout] using he.symm
    | dict d => simpa [set_query_timeout] using he.symm
  · intro n ht hn
    subst ht
    rw [set_query_timeout, if_neg (by omega : ¬ n ≤ 0)]
    refine ⟨rfl, rfl, ?_⟩
    simp [query, queryRequest, buildPost, effTimeout, if_neg (by omega : ¬ n = 0)]

theorem c6_set_query_timeout_contract_witness :
    (set_query_timeout c0 (.int 30)).2 = none ∧
    (set_query_timeout c0 (.int 30)).1.query_timeout = 30 ∧
    (query (set_query_timeout c0 (.int 30)).1 (.str "x") [] http500).2.map
      (fun r => r.timeout) = [30] :=
  (c6_set_query_timeout_contract c0 (.int 30) "x" [] http500).2.2 30 rfl (by decide)

/-- Claim C3: for every query or feedback call, the POSTed JSON body contains
an api_key entry if and only if the cached schema version is an integer
strictly below 7 (including the default -1); at 7 or above no api_key entry is
added. -/
theorem c3_api_key_iff_schema_below7 (c : PredictiveServiceClient) (v : Int)
    (hv : c.schema_version = .int v) (s k : String)
    (kwargs d : List (String × PyVal)) (http : HttpRequest → HttpResponse) :
    ((query c (.str s) kwargs http).2.map (fun r => r.body)
        = [.dict (postBody c [("data", .dict kwargs)])]) ∧
    ((feedback c (.str k) (.dict d) http).2.map (fun r => r.body)
        = [.dict (postBody c [("data", .dict d), ("id", .str k)])]) ∧
    (hasKey (postBody c [("data", .dict kwargs)]) "api_key" = true ↔ v < 7) ∧
    (hasKey (postBody c [("data", .dict d), ("id", .str k)]) "api_key" = true ↔ v < 7) := by
  refine ⟨rfl, rfl, ?_, ?_⟩ <;>
  · by_cases h : v < 7
    · simp [postBody, hv, schemaLt7, decide_eq_true h, dictSet, hasKey, h]
    · simp [postBody, hv, schemaLt7, decide_eq_false h, dictSet, hasKey, h]

theorem c3_api_key_iff_schema_below7_witness :
    hasKey (postBody cLow [("data", PyVal.dict [])]) "api_key" = true ∧
    ¬ hasKey (postBody c0 [("data", PyVal.dict [])]) "api_key" = true :=
  ⟨(c3_api_key_iff_schema_below7 cLow 5 rfl "x" "id" [] [] http500).2.2.1.mpr
      (by decide),
   fun h =>
     absurd ((c3_api_key_iff_schema_below7 c0 9 rfl "x" "id" [] [] http500).2.2.1.mp h)
       (by decide)⟩

/-- Claim C2 counterexample: with cached schema version 5 (below 7) and a
query with params `x = 1`, the issued body is
`{"data": {"x": 1}, "api_key": "k"}` — the api_key entry sits at the top
level of the body beside "data", and the nested "data" object is exactly the
params with no api_key inside, contradicting the claimed shape
`{"data": {...params..., "api_key": key}}`. -/
theorem c2_counterexample :
    (query cLow (.str "m") [("x", PyVal.int 1)] http200ack).2.map (fun r => r.body)
      = [PyVal.dict [("data", PyVal.dict [("x", PyVal.int 1)]),
                     ("api_key", PyVal.str "k")]] := rfl

/-- Claim C2 amended: while the cached schema version is an integer below 7,
the body POSTed by `query` is `{"data": {...params...}, "api_key": <key>}` —
the api_key entry is a top-level sibling of "data", not nested inside it —
and the request url is `<endpoint>/query/<url-encoded-uri>`. -/
theorem c2_api_key_beside_data (c : PredictiveServiceClient) (v : Int)
    (hv : c.schema_version = .int v) (hlt : v < 7) (s : String)
    (kwargs : List (String × PyVal)) (http : HttpRequest → HttpResponse) :
    ((query c (.str s) kwargs http).2.map (fun r => r.body)
        = [.dict [("data", .dict kwargs), ("api_key", .str c.api_key)]]) ∧
    ((query c (.str s) kwargs http).2.map (fun r => r.url)
        = [c.endpoint ++ "/" ++ ("query/" ++ urlQuote s)]) := by
  constructor
  · simp [query, queryRequest, buildPost, postBody, hv, schemaLt7,
      decide_eq_true hlt, dictSet]
  · simp [query, queryRequest, buildPost]

theorem c2_api_key_beside_data_witness :
    (query cLow (.str "m") [] http500).2.map (fun r => r.body)
      = [PyVal.dict [("data", PyVal.dict []), ("api_key", PyVal.str "k")]] :=
  (c2_api_key_beside_data cLow 5 rfl (by decide) "m" [] http500).1

/-- Claim C1 counterexample: on a POST to feedback answered with status 500,
`feedback` returns the raw response as its value instead of failing with
`RequestError 500 "boom"` as the claimed query error mapping would demand. -/
theorem c1_counterexample :
    (feedback c0 (.str "id1") (.dict [("k", .str "v")]) http500).1
      = .ok { status_code := 500, text := "boom", json := none } ∧
    (feedback c0 (.str "id1") (.dict [("k", .str "v")]) http500).1
      ≠ .error (.requestError 500 "boom") := by
  refine ⟨rfl, fun h => ?_⟩
  rw [show (feedback c0 (.str "id1") (.dict [("k", .str "v")]) http500).1
        = .ok { status_code := 500, text := "boom", json := none } from rfl] at h
  exact Except.noConfusion h

/-- Claim C1 amended: for every string key and dict data, `feedback` POSTs the
body to `<endpoint>/feedback` and returns the raw HTTP response unchanged,
whatever its status code; it performs no status dispatch and no JSON parsing,
so non-200 responses are not mapped to RequestError. -/
theorem c1_feedback_returns_raw_response (c : PredictiveServiceClient)
    (k : String) (d : List (String × PyVal))
    (http : HttpRequest → HttpResponse) :
    feedback c (.str k) (.dict d) http
      = (.ok (http (feedbackRequest c k d)), [feedbackRequest c k d]) ∧
    (feedbackRequest c k d).url = c.endpoint ++ "/" ++ "feedback" :=
  ⟨rfl, rfl⟩

/-- Claim C5: with valid direct configuration, construction succeeds for every
ping outcome; a failed ping (network error, non-200 status, or malformed JSON
body) is swallowed and the cached schema version degrades to -1, while a 200
ping with a JSON object body caches its schema_version field, default -1 when
absent. -/
theorem c5_ping_failure_swallowed (ep key : String) (vc : Option Bool)
    (fs : String → Option ConfigFile) (ping : Option HttpResponse)
    (hep : truthyS (some ep) = true) (hkey : truthyS (some key) = true) :
    (initClient (some ep) (some key) vc none fs ping
        = .ok { endpoint := ep, api_key := key,
                should_verify_certificate := vc.getD false,
                query_timeout := 10,
                schema_version := computeSchemaVersion ping }) ∧
    (ping = none → computeSchemaVersion ping = .int (-1)) ∧
    (∀ r, ping = some r → r.status_code ≠ 200 →
        computeSchemaVersion ping = .int (-1)) ∧
    (∀ r, ping = some r → r.json = none →
        computeSchemaVersion ping = .int (-1)) ∧
    (∀ r fields, ping = some r → r.status_code = 200 →
        r.json = some (.dict fields) →
        computeSchemaVersion ping
          = (fields.lookup "schema_version").getD (.int (-1))) := by
  refine ⟨?_, ?_, ?_, ?_, ?_⟩
  · rw [initClient, resolveConfig, if_neg (by rw [show truthyS none = false from rfl]; simp)]
    rw [if_neg (by rw [hep, hkey]; simp)]
    rfl
  · intro h; rw [h]; rfl
  · intro r h hne
    rw [h, computeSchemaVersion, if_neg hne]
  · intro r h hj
    rw [h, computeSchemaVersion, hj]
    split <;> rfl
  · intro r fields h h200 hj
    rw [h, computeSchemaVersion, if_pos h200, hj]

theorem c5_ping_failure_swallowed_witness :
    initClient (some "http://e") (some "k") none none (fun _ => none) none
      = .ok { endpoint := "http://e", api_key := "k",
              should_verify_certificate := false,
              query_timeout := 10, schema_version := .int (-1) } :=
  (c5_ping_failure_swallowed "http://e" "k" none (fun _ => none) none rfl rfl).1

/-- Claim C9: construction fails with ConfigurationError when neither a config
file nor both endpoint and api key are supplied, when the config-file path is
not an existing file, and when the config file lacks the Service Info section;
in each case the result is an error, so no client is produced. -/
theorem c9_construction_failures (endpoint api_key : Option String)
    (vc : Option Bool) (fs : String → Option ConfigFile)
    (ping : Option HttpResponse) (path : String) :
    (truthyS endpoint = false ∨ truthyS api_key = false →
      initClient endpoint api_key vc none fs ping
        = .error (.configurationError
            "Either config_file or endpoint and api_key pair need to be provided to initialize PredictiveServiceClient.")) ∧
    (truthyS (some path) = true → fs path = none →
      initClient endpoint api_key vc (some path) fs ping
        = .error (.configurationError ("Path " ++ path ++ " is not a file."))) ∧
    (∀ cfg, truthyS (some path) = true → fs path = some cfg →
      cfg.sections.lookup SERVICE_INFO_SECTION_NAME = none →
      initClient endpoint api_key vc (some path) fs ping
        = .error (.configurationError
            ("Cannot find " ++ SERVICE_INFO_SECTION_NAME ++ " section in config file " ++ path))) := by
  refine ⟨?_, ?_, ?_⟩
  · intro h
    rw [initClient, resolveConfig,
      if_neg (by rw [show truthyS none = false from rfl]; simp)]
    rcases h with h | h
    · rw [if_pos (by rw [h]; simp)]; rfl
    · rw [if_pos (by rw [h]; simp)]; rfl
  · intro hp hf
    simp [initClient, resolveConfig, hp, read_config, hf, Except.map]
  · intro cfg hp hf hsec
    simp [initClient, resolveConfig, hp, read_config, hf, hsec, Except.map]

theorem c9_construction_failures_witness :
    initClient none (some "k") none none (fun _ => none) none
      = .error (.configurationError
          "Either config_file or endpoint and api_key pair need to be provided to initialize PredictiveServiceClient.") ∧
    initClient none none none (some "conf.ini") (fun _ => none) none
      = .error (.configurationError "Path conf.ini is not a file.") ∧
    initClient none none none (some "conf.ini")
        (fun _ => some { sections := [] }) none
      = .error (.configurationError
          "Cannot find Service Info section in config file conf.ini") :=
  ⟨(c9_construction_failures none (some "k") none (fun _ => none) none "p").1
      (Or.inl rfl),
   (c9_construction_failures none none none (fun _ => none) none "conf.ini").2.1
      rfl rfl,
   (c9_construction_failures none none none (fun _ => some { sections := [] })
      none "conf.ini").2.2 { sections := [] } rfl rfl rfl⟩

/-- Claim C10: every successfully constructed client starts with query timeout
10 (positive); `set_query_timeout` preserves positivity of the timeout, and
when it fails it raises before assigning, leaving the client unchanged. -/
theorem c10_query_timeout_invariant (endpoint api_key : Option String)
    (vc : Option Bool) (cf : Option String) (fs : String → Option ConfigFile)
    (ping : Option HttpResponse) (c b : PredictiveServiceClient) (t : PyVal) :
    (initClient endpoint api_key vc cf fs ping = .ok c → c.query_timeout = 10) ∧
    (0 < b.query_timeout → 0 < (set_query_timeout b t).1.query_timeout) ∧
    (∀ e, (set_query_timeout b t).2 = some e → (set_query_timeout b t).1 = b) := by
  refine ⟨?_, ?_, ?_⟩
  · intro h
    cases hrc : resolveConfig endpoint api_key vc cf fs with
    | error e => simp [initClient, hrc, Except.map] at h
    | ok cfg =>
        simp [initClient, hrc, Except.map] at h
        rw [← h]
  · intro hb
    cases t with
    | str v => exact hb
    | int n =>
        by_cases h : n ≤ 0
        · rw [set_query_timeout, if_pos h]; exact hb
        · rw [set_query_timeout, if_neg h]; simpa using by omega
    | bool v =>
        cases v
        · exact hb
        · rw [set_query_timeout]; simp
    | pynone => exact hb
    | list xs => exact hb
    | dict d => exact hb
  · intro e he
    cases t with
    | str v => rfl
    | int n =>
        by_cases h : n ≤ 0
        · rw [set_query_timeout, if_pos h]
        · rw [set_query_timeout, if_neg h] at he
          exact absurd he (by simp)
    | bool v =>
        cases v
        · rfl
        · rw [set_query_timeout] at he
          exact absurd he (by simp)
    | pynone => rfl
    | list xs => rfl
    | dict d => rfl

theorem c10_query_timeout_invariant_witness :
    (PredictiveServiceClient.query_timeout
        { endpoint := "http://e", api_key := "k",
          should_verify_certificate := false,
          query_timeout := 10, schema_version := .int (-1) } = 10) ∧
    (0 < (set_query_timeout c0 (.int (-5))).1.query_timeout) ∧
    ((set_query_timeout c0 (.int 0)).1 = c0) :=
  ⟨(c10_query_timeout_invariant (some "http://e") (some "k") none none
      (fun _ => none) none
      { endpoint := "http://e", api_key := "k",
        should_verify_certificate := false,
        query_timeout := 10, schema_version := .int (-1) } c0 (.int 1)).1 rfl,
   (c10_query_timeout_invariant none none none none (fun _ => none) none
      c0 c0 (.int (-5))).2.1 (by decide),
   (c10_query_timeout_invariant none none none none (fun _ => none) none
      c0 c0 (.int 0)).2.2
      (.invalidArgument "timeout value has to be a positive integer in seconds") rfl⟩

end DatoClient
